import Mathlib

/-!
Verification of the SilverAi repository (gcl-team/SilverAi).

The heart of the repository is `src/silver_ai/core.py`, whose `guard`
function is, in its own words, "A temporary skeleton of the guard
decorator": `guard()` takes no parameters, and the wrapper it produces
prints one diagnostic line and then calls the wrapped function
unconditionally.  The test suite (`tests/test_core.py`,
`tests/test_rules.py`) and the demo exercise a far richer interface
(`guard(rules=..., on_fail=...)`, `DRY_RUN_FLAG`, `GuardResult`,
`GuardViolationError`, a `silver_ai.rules` module) that the source tree
does not contain.

The development below embeds the Python code shallowly.  A Python
callable with side effects is a function from an argument tuple and a
world to an `Outcome`: the updated world, the list of lines printed
(modelling stdout), and either a returned value or a raised exception.
The skeleton `guard`/`decorator`/`wrapper` chain from core.py and the
mock devices and rules from tests/test_core.py are translated from the
source; the three concrete rules of the absent `silver_ai/rules.py`
module are modelled from the specification.
-/

namespace SilverAi

/-- A Python scalar value as it appears in this code base: numbers,
strings, booleans, and None. -/
inductive PyVal where
  | int (n : Int)
  | str (s : String)
  | boolean (b : Bool)
  | pynone
deriving DecidableEq

/-- A state snapshot: a mapping from string keys to scalar values,
embedded as an association list (Python dict keys are unique, and lookup
takes the first match). -/
def PyState : Type := List (String × PyVal)

/-- Dictionary lookup, `state.get(key)`. -/
def stateGet (st : PyState) (k : String) : Option PyVal :=
  match st with
  | [] => Option.none
  | (k2, v) :: rest => if k2 = k then Option.some v else stateGet rest k

/-- A Python exception as relevant to this code base.  `typeError`
models the `TypeError` the interpreter raises on a call with unexpected
keyword arguments; `guardViolationError` models the
`GuardViolationError` the tests import (core.py itself never defines or
raises it). -/
inductive PyError where
  | typeError (msg : String)
  | guardViolationError (msg : String)
deriving DecidableEq

/-- The observable result of one Python call: the updated world, the
lines printed to stdout during the call, and either a returned value or
a raised exception. -/
structure Outcome (σ : Type) where
  world : σ
  out : List String
  ret : Except PyError PyVal

/-- A Python callable with side effects on a world of type `σ`, taking
an argument tuple of type `α`. -/
def Callable (σ α : Type) : Type := α → σ → Outcome σ

/-- The diagnostic line printed by the skeleton wrapper
(src/silver_ai/core.py line 13). -/
def scanLine : String := "SilverAi Guard: Scanning..."

/-- Embeds `wrapper` from src/silver_ai/core.py lines 11 to 14: it
prints the scanning line and then unconditionally calls the wrapped
function with the same arguments, propagating its result.  The
`functools.wraps` decoration only copies metadata and has no effect on
call behaviour. -/
def wrapper {σ α : Type} (func : Callable σ α) : Callable σ α := fun args s =>
  let o := func args s
  { world := o.world, out := scanLine :: o.out, ret := o.ret }

/-- Embeds `decorator` from src/silver_ai/core.py lines 9 to 15: given a
function it returns the wrapper around it. -/
def decorator {σ α : Type} (func : Callable σ α) : Callable σ α := wrapper func

/-- Result of invoking the `guard` factory itself: either the decorator
it returns, or the `TypeError` the interpreter raises on an unexpected
keyword argument. -/
inductive GuardCallResult (σ α : Type) where
  | decorator (d : Callable σ α → Callable σ α)
  | typeError (kw : String)

/-- Embeds a call of `guard` from src/silver_ai/core.py line 5 with a
list of keyword arguments.  `def guard()` declares no parameters, so the
call binds no keyword: the first keyword argument supplied makes the
interpreter raise `TypeError: guard() got an unexpected keyword
argument ...`; with no arguments the call returns `decorator`. -/
def guardCall (σ α : Type) {β : Type} (kwargs : List (String × β)) :
    GuardCallResult σ α :=
  match kwargs with
  | [] => GuardCallResult.decorator decorator
  | (k, _) :: _ => GuardCallResult.typeError k

/-- The rule capability set as the tests exercise it: a check predicate
over a state snapshot, a violation message, and a remedy suggestion. -/
structure Rule where
  check : PyState → Bool
  violation_message : PyState → String
  suggestion : String

/-- Embeds `AlwaysTrueRule` from tests/test_core.py lines 10 to 18. -/
def AlwaysTrueRule : Rule :=
  { check := fun _ => true, violation_message := fun _ => "", suggestion := "" }

/-- Embeds `AlwaysFalseRule` from tests/test_core.py lines 21 to 29. -/
def AlwaysFalseRule : Rule :=
  { check := fun _ => false
    violation_message := fun _ => "You shall not pass!"
    suggestion := "Go back." }

/-- Embeds the observable attributes of `MockDevice` from
tests/test_core.py lines 32 to 38: a state snapshot, the dry-run flag
attribute, and the side-effect marker `action_performed`. -/
structure MockDevice where
  state : PyState
  dry_run : Bool
  action_performed : Bool

/-- Embeds the body of `MockDevice.safe_action` (tests/test_core.py
lines 42 to 44): it sets the `action_performed` marker and returns the
string "Executed". -/
def safe_action_body : Callable MockDevice Unit := fun _ d =>
  { world := { d with action_performed := true }
    out := []
    ret := Except.ok (PyVal.str "Executed") }

/-- Embeds the body of `MockDevice.dangerous_action` (tests/test_core.py
lines 48 to 50): it sets the `action_performed` marker and returns the
string "Should Not Happen". -/
def dangerous_action_body : Callable MockDevice Unit := fun _ d =>
  { world := { d with action_performed := true }
    out := []
    ret := Except.ok (PyVal.str "Should Not Happen") }

/-- Embeds the body of `MockDevice.critical_action` (tests/test_core.py
lines 54 to 56): it sets the `action_performed` marker and returns the
string "Should Crash". -/
def critical_action_body : Callable MockDevice Unit := fun _ d =>
  { world := { d with action_performed := true }
    out := []
    ret := Except.ok (PyVal.str "Should Crash") }

/-- Embeds the body of `plain_func` (tests/test_core.py lines 146 to
147): a plain function with no arguments and no owning entity that
returns the string "I ran". -/
def plain_func_body : Callable Unit Unit := fun _ u =>
  { world := u, out := [], ret := Except.ok (PyVal.str "I ran") }

/-- Whether `needle` occurs at the start of `hay` (on character lists). -/
def charsLead (needle hay : List Char) : Bool :=
  match needle, hay with
  | [], _ => true
  | _ :: _, [] => false
  | c :: ns, h :: hs => c == h && charsLead ns hs

/-- Whether `needle` occurs anywhere inside `hay` (on character lists). -/
def charsSub (needle hay : List Char) : Bool :=
  match hay with
  | [] => charsLead needle []
  | h :: hs => charsLead needle (h :: hs) || charsSub needle hs

/-- Whether the string `needle` occurs as a substring of `hay`. -/
def strHasSub (hay needle : String) : Bool :=
  charsSub needle.toList hay.toList

/-- A substring of the tail of a list is a substring of the whole list. -/
theorem charsSub_of_suffix (needle t : List Char) (h : List Char)
    (hs : charsSub needle t = true) : charsSub needle (h ++ t) = true := by
  induction h with
  | nil => simpa using hs
  | cons c rest ih => simp [charsSub, ih]

/-- A substring of the second half of a string concatenation is a
substring of the concatenation. -/
theorem strHasSub_of_suffix (a b needle : String)
    (hs : strHasSub b needle = true) : strHasSub (a ++ b) needle = true := by
  unfold strHasSub at hs ⊢
  have hdata : (a ++ b).toList = a.toList ++ b.toList := rfl
  rw [hdata]
  exact charsSub_of_suffix _ _ _ hs

/-- Uppercase a string character by character, used for the
case-insensitive comparison the specification prescribes for string
configuration values. -/
def upStr (s : String) : String := String.mk (s.toList.map Char.toUpper)

/-- Modelled from the spec: the battery reading a `BatteryMin` rule of
the absent `silver_ai/rules.py` module evaluates; a missing "battery"
key is treated as the fail-safe default of 0 percent (spec section 4.2). -/
def batteryReading (st : PyState) : Int :=
  match stateGet st "battery" with
  | Option.some (PyVal.int n) => n
  | _ => 0

/-- Modelled from the spec: the `BatteryMin` rule of the absent
`silver_ai/rules.py` module, configured with a minimum battery level. -/
structure BatteryMin where
  min_level : Int

/-- Modelled from the spec: `BatteryMin.check` passes iff the (possibly
defaulted) battery reading meets the configured minimum. -/
def BatteryMin.check (r : BatteryMin) (st : PyState) : Bool :=
  decide (r.min_level ≤ batteryReading st)

/-- Modelled from the spec: `BatteryMin.violation_message` reports the
same (possibly defaulted) percentage that `check` evaluated. -/
def BatteryMin.violation_message (r : BatteryMin) (st : PyState) : String :=
  ("Battery level too low. Required minimum: " ++ toString r.min_level) ++
    ("%. Found: " ++ toString (batteryReading st) ++ "%")

/-- Modelled from the spec: the temperature reading a `MaxTemp` rule of
the absent `silver_ai/rules.py` module evaluates; a missing
"temperature" key is treated as the fail-safe extreme 999, assuming a
broken sensor means overheating (spec section 4.2). -/
def temperatureReading (st : PyState) : Int :=
  match stateGet st "temperature" with
  | Option.some (PyVal.int n) => n
  | _ => 999

/-- Modelled from the spec: the `MaxTemp` rule of the absent
`silver_ai/rules.py` module, configured with a maximum temperature. -/
structure MaxTemp where
  max_temp : Int

/-- Modelled from the spec: `MaxTemp.check` passes iff the (possibly
defaulted) temperature reading does not exceed the configured maximum. -/
def MaxTemp.check (r : MaxTemp) (st : PyState) : Bool :=
  decide (temperatureReading st ≤ r.max_temp)

/-- Modelled from the spec: `MaxTemp.violation_message` reports the same
(possibly defaulted) temperature that `check` evaluated. -/
def MaxTemp.violation_message (r : MaxTemp) (st : PyState) : String :=
  ("Temperature above maximum. Allowed: " ++ toString r.max_temp) ++
    (". Found: " ++ toString (temperatureReading st))

/-- Modelled from the spec: the connectivity reading a
`RequireConnectivity` rule of the absent `silver_ai/rules.py` module
evaluates; a missing "connection" key is treated as the explicit
fail-safe state "OFFLINE" (spec section 4.2). -/
def connectionReading (st : PyState) : String :=
  match stateGet st "connection" with
  | Option.some (PyVal.str s) => s
  | _ => "OFFLINE"

/-- Modelled from the spec: the `RequireConnectivity` rule of the absent
`silver_ai/rules.py` module, configured with a required connection mode. -/
structure RequireConnectivity where
  required : String

/-- Modelled from the spec: `RequireConnectivity.check` passes iff the
(possibly defaulted) connection reading matches the required mode,
compared case-insensitively (spec section 4.2). -/
def RequireConnectivity.check (r : RequireConnectivity) (st : PyState) : Bool :=
  decide (upStr (connectionReading st) = upStr r.required)

/-- Modelled from the spec: `RequireConnectivity.violation_message`
reports the same (possibly defaulted) connection reading that `check`
evaluated. -/
def RequireConnectivity.violation_message (r : RequireConnectivity)
    (st : PyState) : String :=
  ("Connectivity requirement not met. Required: " ++ r.required) ++
    (". Found: " ++ connectionReading st)

/-- The fail-safe-default property of the three concrete rules over a
state snapshot missing their expected keys: each check computes the same
verdict as on the documented default (battery 0, temperature 999,
connection "OFFLINE"), fails whenever that default fails the configured
threshold, and the violation message reflects the defaulted value. -/
def fail_safe_spec (bmin tmax : Int) (req : String) (st : PyState) : Prop :=
  ((BatteryMin.mk bmin).check st = (BatteryMin.mk bmin).check [("battery", PyVal.int 0)]
    ∧ (0 < bmin → (BatteryMin.mk bmin).check st = false)
    ∧ strHasSub ((BatteryMin.mk bmin).violation_message st) "0%" = true)
  ∧ ((MaxTemp.mk tmax).check st = (MaxTemp.mk tmax).check [("temperature", PyVal.int 999)]
    ∧ (tmax < 999 → (MaxTemp.mk tmax).check st = false)
    ∧ strHasSub ((MaxTemp.mk tmax).violation_message st) "999" = true)
  ∧ ((RequireConnectivity.mk req).check st
      = (RequireConnectivity.mk req).check [("connection", PyVal.str "OFFLINE")]
    ∧ (upStr req ≠ "OFFLINE" → (RequireConnectivity.mk req).check st = false)
    ∧ strHasSub ((RequireConnectivity.mk req).violation_message st) "Found: OFFLINE" = true)

/-- Claim C1: with at least one failing rule and the block policy, the
guarded action should not execute and should return an error
GuardResult.  On the code as written this fails twice over: attaching
the configuration `guard(rules=[AlwaysFalseRule()])` raises TypeError,
and the skeleton wrapper itself (the cited lines) executes the dangerous
action unconditionally, setting the side-effect marker and returning the
native string rather than any GuardResult. -/
theorem C1_block_policy_unimplemented :
    guardCall MockDevice Unit [("rules", [AlwaysFalseRule])]
      = GuardCallResult.typeError "rules"
    ∧ (wrapper dangerous_action_body () (MockDevice.mk [] false false)).world.action_performed
      = true
    ∧ (wrapper dangerous_action_body () (MockDevice.mk [] false false)).ret
      = Except.ok (PyVal.str "Should Not Happen") :=
  ⟨rfl, rfl, rfl⟩

/-- Claim C2: with the raise policy and a failing rule, invocation
should raise a GuardViolation and the action should never run.  On the
code as written the decoration `guard(rules=[...], on_fail="raise")`
raises TypeError, and the skeleton wrapper executes the critical action
and returns its native string normally instead of raising anything. -/
theorem C2_raise_policy_unimplemented :
    guardCall MockDevice Unit
        [("rules", Sum.inl [AlwaysFalseRule]), ("on_fail", Sum.inr "raise")]
      = GuardCallResult.typeError "rules"
    ∧ (wrapper critical_action_body () (MockDevice.mk [] false false)).ret
      = Except.ok (PyVal.str "Should Crash")
    ∧ (wrapper critical_action_body () (MockDevice.mk [] false false)).world.action_performed
      = true :=
  ⟨rfl, rfl, rfl⟩

/-- Claim C3: with all rules passing and dry-run false, the guarded
action should execute once and propagate its value.  On the code as
written no rule configuration can be attached at all: the decoration
`guard(rules=[AlwaysTrueRule()])` raises TypeError, so the guarded
action the claim quantifies over is never created.  The bare wrapper,
for comparison, does call through and propagate. -/
theorem C3_rule_configuration_rejected :
    guardCall MockDevice Unit [("rules", [AlwaysTrueRule])]
      = GuardCallResult.typeError "rules"
    ∧ (wrapper safe_action_body () (MockDevice.mk [] false false)).ret
      = Except.ok (PyVal.str "Executed")
    ∧ (wrapper safe_action_body () (MockDevice.mk [] false false)).world.action_performed
      = true :=
  ⟨rfl, rfl, rfl⟩

/-- Claim C4: with dry-run true and all rules passing, the action should
not execute and a simulated-success GuardResult should be returned.  On
the code as written the wrapper never reads any dry-run flag: on a
device whose flag is set it still executes the action and returns the
native string, not a GuardResult. -/
theorem C4_dry_run_unimplemented :
    (wrapper safe_action_body () (MockDevice.mk [] true false)).world.action_performed = true
    ∧ (wrapper safe_action_body () (MockDevice.mk [] true false)).ret
      = Except.ok (PyVal.str "Executed") :=
  ⟨rfl, rfl⟩

/-- Claim C5: with dry-run true and a failing rule, the result should
have status error.  On the code as written the wrapper evaluates no
rules: on a dry-run device it executes the dangerous action and returns
its native string, not any error result. -/
theorem C5_dry_run_failure_unimplemented :
    (wrapper dangerous_action_body () (MockDevice.mk [] true false)).ret
      = Except.ok (PyVal.str "Should Not Happen")
    ∧ (wrapper dangerous_action_body () (MockDevice.mk [] true false)).world.action_performed
      = true :=
  ⟨rfl, rfl⟩

/-- Claim C6: a guarded plain callable with no entity argument should
always execute regardless of configured rules.  On the code as written
the decoration `guard(rules=[AlwaysFalseRule()])` raises TypeError
before any callable is wrapped; the bare wrapper, for comparison, does
execute the plain function and return its string. -/
theorem C6_plain_function_decoration_rejected :
    guardCall Unit Unit [("rules", [AlwaysFalseRule])]
      = GuardCallResult.typeError "rules"
    ∧ (wrapper plain_func_body () ()).ret = Except.ok (PyVal.str "I ran")
    ∧ (wrapper plain_func_body () ()).out = [scanLine] :=
  ⟨rfl, rfl, rfl⟩

/-- Claim C7: every concrete rule evaluated on a snapshot missing its
expected key computes its verdict from the documented fail-safe default
(battery 0 percent, temperature 999, connectivity "OFFLINE"), fails
accordingly, and its violation message reflects the defaulted value.
Proved for the rules modelled from the spec, for every configured
threshold and every snapshot missing the keys. -/
theorem C7_fail_safe_defaults (bmin tmax : Int) (req : String) (st : PyState)
    (hb : stateGet st "battery" = Option.none)
    (ht : stateGet st "temperature" = Option.none)
    (hc : stateGet st "connection" = Option.none) :
    fail_safe_spec bmin tmax req st := by
  have hbr : batteryReading st = 0 := by unfold batteryReading; rw [hb]
  have htr : temperatureReading st = 999 := by unfold temperatureReading; rw [ht]
  have hcr : connectionReading st = "OFFLINE" := by unfold connectionReading; rw [hc]
  refine ⟨⟨?_, ?_, ?_⟩, ⟨?_, ?_, ?_⟩, ⟨?_, ?_, ?_⟩⟩
  · unfold BatteryMin.check
    rw [hbr]
    exact rfl
  · intro h
    unfold BatteryMin.check
    rw [hbr]
    simp
    omega
  · unfold BatteryMin.violation_message
    rw [hbr]
    exact strHasSub_of_suffix _ _ _ (by decide)
  · unfold MaxTemp.check
    rw [htr]
    exact rfl
  · intro h
    unfold MaxTemp.check
    rw [htr]
    simp
    omega
  · unfold MaxTemp.violation_message
    rw [htr]
    exact strHasSub_of_suffix _ _ _ (by decide)
  · unfold RequireConnectivity.check
    rw [hcr]
    exact rfl
  · intro h
    unfold RequireConnectivity.check
    rw [hcr]
    have h1 : upStr "OFFLINE" = "OFFLINE" := by decide
    rw [h1, decide_eq_false_iff_not]
    exact fun e => h e.symm
  · unfold RequireConnectivity.violation_message
    rw [hcr]
    exact strHasSub_of_suffix _ _ _ (by decide)

/-- Witness for C7 at the concrete inputs of the tests: `BatteryMin(10)`,
`MaxTemp(80)`, `RequireConnectivity("ETHERNET")`, each against the empty
snapshot. -/
theorem C7_fail_safe_defaults_witness :
    stateGet ([] : PyState) "battery" = Option.none
    ∧ stateGet ([] : PyState) "temperature" = Option.none
    ∧ stateGet ([] : PyState) "connection" = Option.none
    ∧ fail_safe_spec 10 80 "ETHERNET" [] :=
  ⟨rfl, rfl, rfl, C7_fail_safe_defaults 10 80 "ETHERNET" [] rfl rfl rfl⟩

/-- Claim C8: the engine should perform no I/O of its own.  On the code
as written every guarded call prints the placeholder scanning line: on
an action that itself prints nothing, the wrapped call still emits one
line of engine output. -/
theorem C8_engine_prints_scan_line :
    (wrapper safe_action_body () (MockDevice.mk [] false false)).out
      = ["SilverAi Guard: Scanning..."]
    ∧ (safe_action_body () (MockDevice.mk [] false false)).out = [] :=
  ⟨rfl, rfl⟩

/-- Claim C9: the wrapper returned by the skeleton decorator invokes the
underlying callable exactly once with the same arguments and propagates
its world effects and return value unchanged, adding only the scanning
line to the output; being parametric in the callable and the world, it
reads no state snapshot, no dry-run flag, evaluates no rule, and raises
nothing of its own. -/
theorem C9_wrapper_unconditional :
    ∀ (σ α : Type) (func : Callable σ α) (args : α) (s : σ),
      decorator func = wrapper func
      ∧ (wrapper func args s).world = (func args s).world
      ∧ (wrapper func args s).ret = (func args s).ret
      ∧ (wrapper func args s).out = scanLine :: (func args s).out :=
  fun _ _ _ _ _ => ⟨rfl, rfl, rfl, rfl⟩

/-- Claim C10: `guard` accepts no parameters: called with no arguments
it returns the decorator, and called with any keyword argument list it
raises TypeError on the first keyword, so no rules or on-fail policy can
be attached through the public interface. -/
theorem C10_guard_rejects_keyword_arguments :
    guardCall MockDevice Unit ([] : List (String × PyVal))
      = GuardCallResult.decorator decorator
    ∧ ∀ (σ α β : Type) (k : String) (v : β) (rest : List (String × β)),
        guardCall σ α ((k, v) :: rest) = GuardCallResult.typeError k :=
  ⟨rfl, fun _ _ _ _ _ _ => rfl⟩

end SilverAi
